import Mathlib

/-!
Shallow embedding of the pack-planner program (src/main.rs).

Modelling conventions:
* Rust `f64` values are modelled by the type `F64`: an exact rational for
  finite values, plus `nan`, `inf` and `neginf`.  Arithmetic on finite
  values is exact rational arithmetic (IEEE rounding of in-range finite
  results is not modelled; the special values and the saturating
  `as i32` cast are modelled faithfully, since the program's behaviour on
  zero weights depends on them).  Signed zero is not modelled; the source
  only ever divides by a zero that arises from parsed input, which the
  decimal grammar produces as `+0.0`.
* Rust `i32` values are modelled as `Int`; the one place where the 32-bit
  width is observable in the program (the saturating cast of the floored
  quotient) is modelled explicitly with the i32 bounds.
* `println!` output is modelled as a list of `OutputEvent`s carrying the
  unformatted field values.
* A Rust `panic!` is modelled as an explicit outcome constructor; the
  `while` loop of `print_packs`, which the source does not guarantee to
  terminate, is run on explicit fuel counting loop iterations.
-/

/-- Model of Rust `f64`: finite values are exact rationals. -/
inductive F64 where
  | finite (q : ℚ)
  | nan
  | inf
  | neginf
  deriving DecidableEq, Repr

namespace F64

/-- IEEE subtraction, restricted to the cases of the model. -/
def sub : F64 → F64 → F64
  | nan, _ => nan
  | _, nan => nan
  | finite a, finite b => finite (a - b)
  | finite _, inf => neginf
  | finite _, neginf => inf
  | inf, finite _ => inf
  | inf, inf => nan
  | inf, neginf => inf
  | neginf, finite _ => neginf
  | neginf, inf => neginf
  | neginf, neginf => nan

/-- IEEE addition. -/
def add : F64 → F64 → F64
  | nan, _ => nan
  | _, nan => nan
  | finite a, finite b => finite (a + b)
  | finite _, inf => inf
  | finite _, neginf => neginf
  | inf, finite _ => inf
  | inf, inf => inf
  | inf, neginf => nan
  | neginf, finite _ => neginf
  | neginf, inf => nan
  | neginf, neginf => neginf

/-- IEEE multiplication (`0 * inf = nan`). -/
def mul : F64 → F64 → F64
  | nan, _ => nan
  | _, nan => nan
  | finite a, finite b => finite (a * b)
  | finite a, inf => if a > 0 then inf else if a < 0 then neginf else nan
  | finite a, neginf => if a > 0 then neginf else if a < 0 then inf else nan
  | inf, finite b => if b > 0 then inf else if b < 0 then neginf else nan
  | neginf, finite b => if b > 0 then neginf else if b < 0 then inf else nan
  | inf, inf => inf
  | inf, neginf => neginf
  | neginf, inf => neginf
  | neginf, neginf => inf

/-- IEEE division; division of a nonzero finite value by (positive) zero
gives a signed infinity, and `0.0 / 0.0 = nan`. -/
def div : F64 → F64 → F64
  | nan, _ => nan
  | _, nan => nan
  | finite a, finite b =>
      if b = 0 then (if a > 0 then inf else if a < 0 then neginf else nan)
      else finite (a / b)
  | finite _, inf => finite 0
  | finite _, neginf => finite 0
  | inf, finite b => if b < 0 then neginf else inf
  | neginf, finite b => if b < 0 then inf else neginf
  | inf, inf => nan
  | inf, neginf => nan
  | neginf, inf => nan
  | neginf, neginf => nan

/-- Model of Rust `f64::floor`. -/
def floor : F64 → F64
  | finite q => finite (Int.floor q : ℤ)
  | nan => nan
  | inf => inf
  | neginf => neginf

/-- Model of the Rust `as i32` cast on an `f64`: rounds toward zero,
saturates at the i32 bounds, and maps nan to 0. -/
def toI32 : F64 → Int
  | nan => 0
  | inf => 2147483647
  | neginf => -2147483648
  | finite q =>
      let t : Int := if 0 ≤ q then Int.floor q else Int.ceil q
      max (-2147483648) (min 2147483647 t)

/-- Model of the `i32 as f64` cast (always exact). -/
def ofInt (n : Int) : F64 := finite (n : ℚ)

/-- IEEE strict less-than: every comparison with nan is false. -/
def lt : F64 → F64 → Bool
  | nan, _ => false
  | _, nan => false
  | finite a, finite b => a < b
  | finite _, inf => true
  | finite _, neginf => false
  | inf, _ => false
  | neginf, neginf => false
  | neginf, _ => true

/-- IEEE greater-than, as used by the `>` comparisons in the source. -/
def gt (a b : F64) : Bool := lt b a

/-- Model of Rust `f64::partial_cmp`: `none` exactly when an operand is nan. -/
def partialCmp : F64 → F64 → Option Ordering
  | nan, _ => none
  | _, nan => none
  | finite a, finite b => some (compare a b)
  | finite _, inf => some .lt
  | finite _, neginf => some .gt
  | inf, inf => some .eq
  | inf, _ => some .gt
  | neginf, neginf => some .eq
  | neginf, _ => some .lt

end F64

/-- Numeric value of a list of decimal digit characters. -/
def digitsToNat (ds : List Char) : Nat :=
  ds.foldl (fun a c => a * 10 + (c.toNat - 48)) 0

/-- Longest leading run of decimal digits, and the remainder. -/
def takeDigits : List Char → (List Char × List Char)
  | [] => ([], [])
  | c :: t =>
      if c.isDigit then
        let (d, r) := takeDigits t
        (c :: d, r)
      else ([], c :: t)

/-- Optional leading sign; returns whether the value is negated and the rest. -/
def takeSign : List Char → (Bool × List Char)
  | '+' :: t => (false, t)
  | '-' :: t => (true, t)
  | t => (false, t)

/-- Scale a rational by a signed power of ten. -/
def scalePow10 (q : ℚ) (e : Int) : ℚ :=
  if 0 ≤ e then q * (10 : ℚ) ^ e.toNat else q / (10 : ℚ) ^ (-e).toNat

/-- Finite value denoted by integer digits `ip`, fraction digits `fp`,
a decimal exponent `e` and a sign.  Exact, per the model's convention of
not modelling rounding to the nearest representable `f64`. -/
def decimalValue (neg : Bool) (ip fp : List Char) (e : Int) : F64 :=
  let mag : ℚ := (digitsToNat ip : ℚ) + (digitsToNat fp : ℚ) / (10 : ℚ) ^ fp.length
  .finite (scalePow10 (if neg then -mag else mag) e)

/-- Optional exponent part of the `f64` grammar applied to the mantissa
digits; fails on trailing garbage. -/
def parseExpPart (neg : Bool) (ip fp : List Char) : List Char → Option F64
  | [] => some (decimalValue neg ip fp 0)
  | c :: t =>
      if c = 'e' ∨ c = 'E' then
        let (eneg, t1) := takeSign t
        let (ed, t2) := takeDigits t1
        if ed.isEmpty ∨ ¬ t2.isEmpty then none
        else
          let ev : Int := (digitsToNat ed : Int)
          some (decimalValue neg ip fp (if eneg then -ev else ev))
      else none

/-- Model of Rust `f64::from_str` (`str::parse::<f64>()`): optional sign,
then case-insensitive `inf`/`infinity`/`nan` or a decimal number with an
optional fraction and exponent. -/
def parseF64 (s : String) : Option F64 :=
  let (neg, cs) := takeSign s.data
  let lower := cs.map Char.toLower
  if lower = "inf".data ∨ lower = "infinity".data then
    some (if neg then .neginf else .inf)
  else if lower = "nan".data then some .nan
  else
    let (ip, r1) := takeDigits cs
    match r1 with
    | '.' :: r2 =>
        let (fp, r3) := takeDigits r2
        if ip.isEmpty ∧ fp.isEmpty then none else parseExpPart neg ip fp r3
    | _ => if ip.isEmpty then none else parseExpPart neg ip [] r1

/-- Model of Rust `i32::from_str` (`str::parse::<i32>()`): optional sign,
one or more digits, overflow outside the i32 range is an error. -/
def parseI32 (s : String) : Option Int :=
  let (neg, cs) := takeSign s.data
  if cs.isEmpty ∨ ¬ cs.all Char.isDigit then none
  else
    let v : Int := if neg then -(digitsToNat cs : Int) else (digitsToNat cs : Int)
    if v < -2147483648 ∨ 2147483647 < v then none else some v

/-- Model of Rust `str::split(',')` on the character list of a string:
the separators delimit fields, empty fields included. -/
def splitComma : List Char → List (List Char)
  | [] => [[]]
  | c :: t =>
      if c = ',' then [] :: splitComma t
      else
        match splitComma t with
        | h :: r => (c :: h) :: r
        | [] => [[c]]

/-- Rust `line.split(',').collect::<Vec<&str>>()`. -/
def splitOnCommas (s : String) : List String := (splitComma s.data).map String.mk

/-- Model of `strum::ParseError`. -/
inductive StrumParseError where
  | variantNotFound
  deriving DecidableEq, Repr

/-- Model of the program's `Error` enum.  The `source` fields of the Rust
variants (the nested `ParseIntError` / `ParseFloatError` /
`strum::ParseError` values) carry no information used by the program and
are omitted; all other fields are kept. -/
inductive Error where
  | inputStringShouldStartWithNumberOrKeyWord (input : String)
  | inputContainsDuplicatePackInformation (current_line : String) (current_line_index : Nat)
  | invalidNumberOfPropertiesForPacks (input : String) (property_count : Nat)
  | invalidPackSortOrder (input : String) (property_value : String)
  | invalidPackItemCount (input : String) (property_value : String)
  | invalidPackWeight (input : String) (property_value : String)
  | invalidNumberOfPropertiesForItem (input : String) (property_count : Nat)
  | invalidItemLength (input : String) (property_value : String)
  | invalidItemWeight (input : String) (property_value : String)
  | invalidItemCount (input : String) (property_value : String)
  deriving DecidableEq, Repr

-- Indices used when parsing the pack information from the input
abbrev PACK_SORT_ORDER_INDEX : Nat := 0
abbrev PACK_MAXIMUM_ITEM_COUNT_INDEX : Nat := 1
abbrev PACK_MAXIMUM_WEIGHT_INDEX : Nat := 2

-- Indices used when parsing the items from the input
abbrev ITEM_ID_INDEX : Nat := 0
abbrev ITEM_LENGTH_INDEX : Nat := 1
abbrev ITEM_QUANTITY_INDEX : Nat := 2
abbrev ITEM_WEIGHT_INDEX : Nat := 3

/-- Model of `ItemTemplate`: the properties of one kind of item and how many
items of that kind the input requests. -/
structure ItemTemplate where
  id : String
  length : F64
  weight : F64
  count : Int
  deriving DecidableEq, Repr

/-- Model of `ItemTemplate::from_str` (the `FromStr` impl).  The source
splits on a comma, checks for exactly 4 fields, and then parses the length
field, the weight field, and the count field, in that order, returning the
first failure. -/
def ItemTemplate.from_str (line : String) : Except Error ItemTemplate :=
  let parts := splitOnCommas line
  match parts with
  | [p0, p1, p2, p3] =>
    -- p0, p1, p2, p3 are parts[ITEM_ID_INDEX], parts[ITEM_LENGTH_INDEX],
    -- parts[ITEM_QUANTITY_INDEX], parts[ITEM_WEIGHT_INDEX]
    let id := p0
    match parseF64 p1 with
    | none => .error (.invalidItemLength line p1)
    | some length =>
      match parseF64 p3 with
      | none => .error (.invalidItemWeight line p3)
      | some weight =>
        match parseI32 p2 with
        | none => .error (.invalidItemCount line p2)
        | some count => .ok { id := id, length := length, weight := weight, count := count }
  | _ => .error (.invalidNumberOfPropertiesForItem line parts.length)

/-- Model of `PackSortOrder`: the ways in which packs can be ordered. -/
inductive PackSortOrder where
  | NotSet
  | Natural
  | ShortToLong
  | LongToShort
  deriving DecidableEq, Repr

/-- Model of the `EnumString`-derived `PackSortOrder::from_str`: a variant
with a `to_string` attribute is matched by exactly that string, and a
variant without attributes (here `NotSet`) is matched by its own name;
matching is case-sensitive and exact. -/
def PackSortOrder.from_str (s : String) : Except StrumParseError PackSortOrder :=
  if s = "NotSet" then .ok .NotSet
  else if s = "NATURAL" then .ok .Natural
  else if s = "SHORT_TO_LONG" then .ok .ShortToLong
  else if s = "LONG_TO_SHORT" then .ok .LongToShort
  else .error .variantNotFound

/-- Model of the `Display`-derived `PackSortOrder::to_string`. -/
def PackSortOrder.toStr : PackSortOrder → String
  | .NotSet => "NotSet"
  | .Natural => "NATURAL"
  | .ShortToLong => "SHORT_TO_LONG"
  | .LongToShort => "LONG_TO_SHORT"

/-- Model of `PackTemplate`: the constraints on every pack. -/
structure PackTemplate where
  maximum_number_of_pieces : Int
  maximum_weight : F64
  sort_order : PackSortOrder
  deriving DecidableEq, Repr

/-- Model of `PackTemplate::new`. -/
def PackTemplate.new : PackTemplate :=
  { maximum_number_of_pieces := 0
    maximum_weight := .finite 0
    sort_order := .NotSet }

/-- Model of `PackTemplate::from_line`.  The Rust method mutates `&mut self`
and returns `Result<(), Error>`; this is modelled as returning the record
after the call together with the optional error.  The source parses the
sort order, the item count and the weight, returning early on the first
failure, and assigns all three fields only after all three parses
succeeded. -/
def PackTemplate.from_line (self : PackTemplate) (s : String) :
    PackTemplate × Option Error :=
  let parts := splitOnCommas s
  match parts with
  | [p0, p1, p2] =>
    -- p0, p1, p2 are parts[PACK_SORT_ORDER_INDEX],
    -- parts[PACK_MAXIMUM_ITEM_COUNT_INDEX], parts[PACK_MAXIMUM_WEIGHT_INDEX]
    match PackSortOrder.from_str p0 with
    | .error _ => (self, some (.invalidPackSortOrder s p0))
    | .ok pack_sort_order =>
      match parseI32 p1 with
      | none => (self, some (.invalidPackItemCount s p1))
      | some maximum_number_of_items =>
        match parseF64 p2 with
        | none => (self, some (.invalidPackWeight s p2))
        | some maximum_weight =>
          ({ maximum_number_of_pieces := maximum_number_of_items
             maximum_weight := maximum_weight
             sort_order := pack_sort_order }, none)
  | _ => (self, some (.invalidNumberOfPropertiesForPacks s parts.length))

/-- Insert into a sorted list using a fallible comparator; `none` models the
panic of the `expect` inside the comparator closure. -/
def insertByM (cmp : ItemTemplate → ItemTemplate → Option Ordering)
    (a : ItemTemplate) : List ItemTemplate → Option (List ItemTemplate)
  | [] => some [a]
  | b :: t =>
      match cmp a b with
      | none => none
      | some .lt => some (a :: b :: t)
      | some _ => (insertByM cmp a t).map (fun l => b :: l)

/-- Model of `Vec::sort_by` with a comparator that can panic: an insertion
sort whose result is `none` as soon as one comparison panics.  (The exact
comparison sequence of the Rust merge sort is not reproduced; on the lists
considered here every sort performs the same comparisons.) -/
def sortByM (cmp : ItemTemplate → ItemTemplate → Option Ordering) :
    List ItemTemplate → Option (List ItemTemplate)
  | [] => some []
  | a :: t =>
      match sortByM cmp t with
      | none => none
      | some st => insertByM cmp a st

/-- Model of the ordering step of `main`: `Natural` passes the items through,
the two sorting orders sort by length with a comparator that panics on a nan
length (`partial_cmp(..).expect(..)`), and any other order (the `NotSet`
sentinel) panics with `Undefined sort order detected`.  `none` models a
panic. -/
def applySortOrder : PackSortOrder → List ItemTemplate → Option (List ItemTemplate)
  | .Natural, items => some items
  | .ShortToLong, items => sortByM (fun a b => F64.partialCmp a.length b.length) items
  | .LongToShort, items => sortByM (fun a b => F64.partialCmp b.length a.length) items
  | .NotSet, _ => none

/-- Observable output of `print_packs`, one constructor per kind of
`println!` line, carrying the unformatted values. -/
inductive OutputEvent where
  | itemLine (id : String) (length : F64) (count : Int) (weight : F64)
  | footer (current_weight : F64) (pack_length : F64)
  | blankLine
  | header (pack_number : Int)
  deriving DecidableEq, Repr

/-- Mutable state of the `print_packs` loop. -/
structure EngineState where
  pack_index : Int
  current_pack_weight : F64
  current_pack_item_count : Int
  longest_item_in_pack : F64
  deriving DecidableEq, Repr

/-- Values of the local variables of `print_packs` at its entry:
`pack_index = 0`, `current_pack_weight = pack_template.maximum_weight`,
`current_pack_item_count = pack_template.maximum_number_of_pieces`,
`longest_item_in_pack = 0.0`. -/
def initial_engine_state (pack_template : PackTemplate) : EngineState :=
  { pack_index := 0
    current_pack_weight := pack_template.maximum_weight
    current_pack_item_count := pack_template.maximum_number_of_pieces
    longest_item_in_pack := .finite 0 }

/-- Value of the local `max_items_by_weight` inside
`maximum_number_of_items_to_add`:
`(weight_space_in_pack / template.weight).floor() as i32`. -/
def max_items_by_weight (pack_template : PackTemplate) (current_pack_weight : F64)
    (template : ItemTemplate) : Int :=
  let weight_space_in_pack := pack_template.maximum_weight.sub current_pack_weight
  ((weight_space_in_pack.div template.weight).floor).toI32

/-- Model of `maximum_number_of_items_to_add`. -/
def maximum_number_of_items_to_add (pack_template : PackTemplate)
    (current_pack_weight : F64) (current_pack_item_count : Int)
    (template : ItemTemplate) : Int :=
  let item_space_in_pack := pack_template.maximum_number_of_pieces - current_pack_item_count
  let by_weight := max_items_by_weight pack_template current_pack_weight template
  if by_weight < item_space_in_pack then by_weight else item_space_in_pack

/-- One iteration of the `while items_left_from_current_batch > 0` loop of
`print_packs`, for the batch `template` at position `index` of the `total`
item templates.  Returns the lines printed, the state after the iteration,
and the new `items_left_from_current_batch`. -/
def pack_batch_iter (pack_template : PackTemplate) (template : ItemTemplate)
    (index total : Nat) (s : EngineState) (items_left_from_current_batch : Int) :
    List OutputEvent × EngineState × Int :=
  let items_to_add := maximum_number_of_items_to_add pack_template
    s.current_pack_weight s.current_pack_item_count template
  let (evs1, s1, items_left1, items_to_add1) :=
    if items_to_add > 0 then
      let (items_to_pack, items_left') :=
        if items_to_add < items_left_from_current_batch then
          (items_to_add, items_left_from_current_batch - items_to_add)
        else
          (items_left_from_current_batch, (0 : Int))
      let s' : EngineState :=
        { s with
          current_pack_weight :=
            s.current_pack_weight.add ((F64.ofInt items_to_pack).mul template.weight)
          current_pack_item_count := s.current_pack_item_count + items_to_pack
          longest_item_in_pack :=
            if F64.gt template.length s.longest_item_in_pack then template.length
            else s.longest_item_in_pack }
      ([OutputEvent.itemLine template.id template.length items_to_pack template.weight],
        s', items_left', items_to_add - items_to_pack)
    else ([], s, items_left_from_current_batch, items_to_add)
  if items_to_add1 ≤ 0 then
    let evs2 :=
      if s1.pack_index > 0 then
        [OutputEvent.footer s1.current_pack_weight s1.longest_item_in_pack,
          OutputEvent.blankLine]
      else []
    let s2 : EngineState :=
      { pack_index := s1.pack_index + 1
        current_pack_weight := .finite 0
        current_pack_item_count := 0
        longest_item_in_pack := .finite 0 }
    let evs3 :=
      if index ≤ total - 1 ∧ items_left1 > 0 then [OutputEvent.header s2.pack_index]
      else []
    (evs1 ++ evs2 ++ evs3, s2, items_left1)
  else
    (evs1, s1, items_left1)

/-- The `while items_left_from_current_batch > 0` loop of `print_packs`, run
on fuel counting loop iterations.  The final `Bool` is true when the loop
exited normally and false when the fuel ran out with the condition still
true (the source does not guarantee termination of this loop). -/
def pack_batch_loop (pack_template : PackTemplate) (template : ItemTemplate)
    (index total : Nat) :
    Nat → EngineState → Int → List OutputEvent × EngineState × Int × Bool
  | 0, s, items_left =>
      if items_left > 0 then ([], s, items_left, false) else ([], s, items_left, true)
  | fuel + 1, s, items_left =>
      if items_left > 0 then
        let (evs, s', il') := pack_batch_iter pack_template template index total s items_left
        let (evs2, s'', il'', ok) :=
          pack_batch_loop pack_template template index total fuel s' il'
        (evs ++ evs2, s'', il'', ok)
      else ([], s, items_left, true)

/-- Outcome of a `print_packs` run: normal return, the
`ItemExceedsPackCapacity` panic, or fuel exhaustion of the inner loop. -/
inductive RunOutcome where
  | ok
  | panicked
  | outOfFuel
  deriving DecidableEq, Repr

/-- The `for (index, template) in items.iter().enumerate()` loop of
`print_packs`, starting at position `index` in state `s`. -/
def print_packs_aux (pack_template : PackTemplate) (total fuel : Nat) :
    Nat → EngineState → List ItemTemplate → List OutputEvent × EngineState × RunOutcome
  | _, s, [] => ([], s, .ok)
  | index, s, template :: rest =>
      if F64.gt template.weight pack_template.maximum_weight then
        ([], s, .panicked)
      else
        let (evs, s', r) := pack_batch_loop pack_template template index total fuel s template.count
        if r.2 then
          let (evs2, s'', out) := print_packs_aux pack_template total fuel (index + 1) s' rest
          (evs ++ evs2, s'', out)
        else (evs, s', .outOfFuel)

/-- Model of `print_packs`. -/
def print_packs (fuel : Nat) (items : List ItemTemplate) (pack_template : PackTemplate) :
    List OutputEvent × EngineState × RunOutcome :=
  print_packs_aux pack_template items.length fuel 0 (initial_engine_state pack_template) items

/-- Number of `Pack Length: .., Pack Weight: ..` footer lines in an output. -/
def countFooters (evs : List OutputEvent) : Nat :=
  evs.countP fun e => match e with | .footer _ _ => true | _ => false

/-- Decidable equality for `Except` results, used to evaluate the parsers
on concrete inputs. -/
instance {e a : Type} [DecidableEq e] [DecidableEq a] : DecidableEq (Except e a)
  | .ok x, .ok y =>
      if h : x = y then .isTrue (by rw [h]) else .isFalse (by intro hh; cases hh; exact h rfl)
  | .ok _, .error _ => .isFalse (by intro hh; cases hh)
  | .error _, .ok _ => .isFalse (by intro hh; cases hh)
  | .error x, .error y =>
      if h : x = y then .isTrue (by rw [h]) else .isFalse (by intro hh; cases hh; exact h rfl)

@[simp] theorem countFooters_nil : countFooters [] = 0 := rfl

@[simp] theorem countFooters_append (a b : List OutputEvent) :
    countFooters (a ++ b) = countFooters a + countFooters b :=
  List.countP_append _ _ _

@[simp] theorem countFooters_itemLine_cons (id : String) (len : F64) (n : Int)
    (w : F64) (l : List OutputEvent) :
    countFooters (.itemLine id len n w :: l) = countFooters l := by
  simp [countFooters, List.countP_cons]

@[simp] theorem countFooters_footer_cons (w pl : F64) (l : List OutputEvent) :
    countFooters (.footer w pl :: l) = countFooters l + 1 := by
  simp [countFooters, List.countP_cons]

@[simp] theorem countFooters_blank_cons (l : List OutputEvent) :
    countFooters (.blankLine :: l) = countFooters l := by
  simp [countFooters, List.countP_cons]

@[simp] theorem countFooters_header_cons (n : Int) (l : List OutputEvent) :
    countFooters (.header n :: l) = countFooters l := by
  simp [countFooters, List.countP_cons]

/-- One loop iteration either leaves `pack_index` unchanged and prints no
footer, or closes the current pack: `pack_index` goes up by one and a footer
is printed exactly when the closed pack's index was positive. -/
theorem pack_batch_iter_spec (pt : PackTemplate) (t : ItemTemplate)
    (idx total : Nat) (s : EngineState) (il : Int) :
    ((pack_batch_iter pt t idx total s il).2.1.pack_index = s.pack_index ∧
      countFooters (pack_batch_iter pt t idx total s il).1 = 0) ∨
    ((pack_batch_iter pt t idx total s il).2.1.pack_index = s.pack_index + 1 ∧
      countFooters (pack_batch_iter pt t idx total s il).1 =
        if 0 < s.pack_index then 1 else 0) := by
  unfold pack_batch_iter
  dsimp only
  split <;> split <;> simp_all <;> split <;> simp_all <;> split <;> simp_all

/-- Invariant of the inner loop: starting from a nonnegative `pack_index`,
the number of footers printed is the number of packs opened beyond the
first, and `pack_index` never decreases. -/
theorem pack_batch_loop_footers (pt : PackTemplate) (t : ItemTemplate)
    (idx total : Nat) :
    ∀ (fuel : Nat) (s : EngineState) (il : Int), 0 ≤ s.pack_index →
      s.pack_index ≤ (pack_batch_loop pt t idx total fuel s il).2.1.pack_index ∧
      countFooters (pack_batch_loop pt t idx total fuel s il).1 =
        ((pack_batch_loop pt t idx total fuel s il).2.1.pack_index -
          max s.pack_index 1).toNat := by
  intro fuel
  induction fuel with
  | zero =>
      intro s il hs
      unfold pack_batch_loop
      split <;> simp <;> omega
  | succ fuel ih =>
      intro s il hs
      unfold pack_batch_loop
      split
      · have hiter := pack_batch_iter_spec pt t idx total s il
        rcases hit : pack_batch_iter pt t idx total s il with ⟨evs, s', il'⟩
        rw [hit] at hiter
        dsimp only at hiter ⊢
        have hs' : 0 ≤ s'.pack_index := by
          rcases hiter with ⟨h1, _⟩ | ⟨h1, _⟩ <;> omega
        have hrec := ih s' il' hs'
        rcases hloop : pack_batch_loop pt t idx total fuel s' il' with ⟨evs2, s'', r⟩
        rw [hloop] at hrec
        dsimp only at hrec ⊢
        rw [countFooters_append]
        rcases hiter with ⟨h1, h2⟩ | ⟨h1, h2⟩
        · exact ⟨by omega, by omega⟩
        · by_cases hp : 0 < s.pack_index
          · rw [if_pos hp] at h2
            exact ⟨by omega, by omega⟩
          · rw [if_neg hp] at h2
            exact ⟨by omega, by omega⟩
      · dsimp only
        refine ⟨by omega, by simp; omega⟩

/-- Invariant of the whole `print_packs` loop nest: the number of footers
printed is the number of packs opened beyond the first, and `pack_index`
never decreases, whatever the outcome. -/
theorem print_packs_aux_footers (pt : PackTemplate) (total fuel : Nat) :
    ∀ (items : List ItemTemplate) (idx : Nat) (s : EngineState),
      0 ≤ s.pack_index →
      s.pack_index ≤ (print_packs_aux pt total fuel idx s items).2.1.pack_index ∧
      countFooters (print_packs_aux pt total fuel idx s items).1 =
        ((print_packs_aux pt total fuel idx s items).2.1.pack_index -
          max s.pack_index 1).toNat := by
  intro items
  induction items with
  | nil =>
      intro idx s hs
      unfold print_packs_aux
      simp
      omega
  | cons t rest ih =>
      intro idx s hs
      unfold print_packs_aux
      split
      · simp
        omega
      · rcases hloop : pack_batch_loop pt t idx total fuel s t.count with ⟨evs, s', il', ok⟩
        have hl := pack_batch_loop_footers pt t idx total fuel s t.count hs
        rw [hloop] at hl
        dsimp only at hl ⊢
        rcases hl with ⟨hle, hcnt⟩
        have hs' : 0 ≤ s'.pack_index := by omega
        split
        · have hrec := ih (idx + 1) s' hs'
          rcases haux : print_packs_aux pt total fuel (idx + 1) s' rest with ⟨evs2, s'', out⟩
          rw [haux] at hrec
          dsimp only at hrec ⊢
          rw [countFooters_append]
          omega
        · dsimp only
          constructor
          · omega
          · omega

/-- Computation rule: a batch heavier than the pack capacity panics at once. -/
theorem print_packs_aux_cons_heavy (pt : PackTemplate) (total fuel idx : Nat)
    (s : EngineState) (t : ItemTemplate) (L : List ItemTemplate)
    (hw : F64.gt t.weight pt.maximum_weight = true) :
    print_packs_aux pt total fuel idx s (t :: L) = ([], s, .panicked) := by
  simp [print_packs_aux, hw]

/-- Computation rule: when the inner loop for the head batch exits normally,
processing continues with the remaining batches at the next index. -/
theorem print_packs_aux_cons_ok (pt : PackTemplate) (total fuel idx : Nat)
    (s : EngineState) (t : ItemTemplate) (L : List ItemTemplate)
    (hw : F64.gt t.weight pt.maximum_weight = false)
    (evs : List OutputEvent) (s' : EngineState) (il : Int)
    (hloop : pack_batch_loop pt t idx total fuel s t.count = (evs, s', il, true))
    (evs2 : List OutputEvent) (s'' : EngineState) (out : RunOutcome)
    (haux : print_packs_aux pt total fuel (idx + 1) s' L = (evs2, s'', out)) :
    print_packs_aux pt total fuel idx s (t :: L) = (evs ++ evs2, s'', out) := by
  unfold print_packs_aux
  rw [hw]
  simp only [Bool.false_eq_true, if_false, hloop]
  simp [haux]

/-- Computation rule: when the inner loop for the head batch runs out of
fuel, the run stops with the `outOfFuel` marker. -/
theorem print_packs_aux_cons_fuel (pt : PackTemplate) (total fuel idx : Nat)
    (s : EngineState) (t : ItemTemplate) (L : List ItemTemplate)
    (hw : F64.gt t.weight pt.maximum_weight = false)
    (evs : List OutputEvent) (s' : EngineState) (il : Int)
    (hloop : pack_batch_loop pt t idx total fuel s t.count = (evs, s', il, false)) :
    print_packs_aux pt total fuel idx s (t :: L) = (evs, s', .outOfFuel) := by
  unfold print_packs_aux
  rw [hw]
  simp only [Bool.false_eq_true, if_false, hloop]

/-- Computation rule: the inner loop does nothing when no units remain. -/
theorem pack_batch_loop_nonpos (pt : PackTemplate) (t : ItemTemplate)
    (idx total fuel : Nat) (s : EngineState) (il : Int) (h : il ≤ 0) :
    pack_batch_loop pt t idx total fuel s il = ([], s, il, true) := by
  cases fuel <;> unfold pack_batch_loop <;> rw [if_neg (by omega)]

/-- Claim C6: a pack summary (footer plus blank separator) is emitted for a
pack exactly when a subsequent pack is opened after it, and the very last
pack opened in a run never receives a closing summary at end of input.
Formally: with packs counted as openings (increments of `pack_index`,
which starts at 0), every run prints exactly one footer per pack opened
except the last one — `pack_index - 1` footers in total, and none when no
pack was ever opened. -/
theorem last_pack_gets_no_summary (fuel : Nat) (items : List ItemTemplate)
    (pt : PackTemplate) :
    countFooters (print_packs fuel items pt).1 =
      ((print_packs fuel items pt).2.1.pack_index - 1).toNat := by
  have h := (print_packs_aux_footers pt items.length fuel items 0
    (initial_engine_state pt) (by simp [initial_engine_state])).2
  simpa [print_packs, initial_engine_state] using h

/-- Claim C1 counterexample: with `max_weight = 20` and `max_pieces = 10`,
the engine state at the start of a run is not all-zero —
`current_pack_weight` starts at 20, not 0. -/
theorem initial_state_not_all_zero_cex :
    ¬ ((initial_engine_state ⟨10, .finite 20, .Natural⟩).current_pack_weight =
        .finite 0 ∧
      (initial_engine_state ⟨10, .finite 20, .Natural⟩).current_pack_item_count = 0) := by
  decide

/-- Claim C1 (amended): at the start of a packing run `pack_number`
(`pack_index`) starts at 0 and `longest_item_length_in_current_pack` starts
at 0, but `current_pack_weight` starts at `maximum_weight` and
`current_pack_piece_count` starts at `maximum_number_of_pieces` (which
forces the first loop iteration to open pack 1); `pack_number` is
incremented, by exactly one, each time a pack is opened. -/
theorem initial_state_values (pt : PackTemplate) :
    (initial_engine_state pt).pack_index = 0 ∧
    (initial_engine_state pt).longest_item_in_pack = F64.finite 0 ∧
    (initial_engine_state pt).current_pack_weight = pt.maximum_weight ∧
    (initial_engine_state pt).current_pack_item_count =
      pt.maximum_number_of_pieces ∧
    (∀ (t : ItemTemplate) (idx total : Nat) (s : EngineState) (il : Int),
      (pack_batch_iter pt t idx total s il).2.1.pack_index = s.pack_index ∨
      (pack_batch_iter pt t idx total s il).2.1.pack_index = s.pack_index + 1) := by
  refine ⟨rfl, rfl, rfl, rfl, ?_⟩
  intro t idx total s il
  rcases pack_batch_iter_spec pt t idx total s il with ⟨h, _⟩ | ⟨h, _⟩
  · exact Or.inl h
  · exact Or.inr h

/-- Claim C5: if the run reaches a batch whose unit weight exceeds
`maximum_weight` (all earlier batches completed normally), it panics with
`ItemExceedsPackCapacity` at that batch: the output is exactly the output
of the earlier batches — nothing is printed for or after the offending
batch, so no further packs are opened — and the batch is not skipped. -/
theorem heavy_batch_aborts (pt : PackTemplate) (total fuel : Nat)
    (b : ItemTemplate) (hb : F64.gt b.weight pt.maximum_weight = true) :
    ∀ (pre : List ItemTemplate) (idx : Nat) (s : EngineState)
      (rest : List ItemTemplate),
      (print_packs_aux pt total fuel idx s pre).2.2 = .ok →
      print_packs_aux pt total fuel idx s (pre ++ b :: rest) =
        ((print_packs_aux pt total fuel idx s pre).1,
          (print_packs_aux pt total fuel idx s pre).2.1, .panicked) := by
  intro pre
  induction pre with
  | nil =>
      intro idx s rest _
      simp only [List.nil_append]
      rw [print_packs_aux_cons_heavy pt total fuel idx s b rest hb]
      rfl
  | cons t ps ih =>
      intro idx s rest hok
      by_cases hw : F64.gt t.weight pt.maximum_weight
      · rw [print_packs_aux_cons_heavy pt total fuel idx s t ps hw] at hok
        simp at hok
      · simp only [Bool.not_eq_true] at hw
        rcases hloop : pack_batch_loop pt t idx total fuel s t.count with ⟨evs, s', il, ok⟩
        cases ok with
        | false =>
            rw [print_packs_aux_cons_fuel pt total fuel idx s t ps hw evs s' il hloop] at hok
            simp at hok
        | true =>
            rcases haux : print_packs_aux pt total fuel (idx + 1) s' ps with ⟨evs2, s'', out⟩
            have h2 := print_packs_aux_cons_ok pt total fuel idx s t ps hw evs s' il hloop
              evs2 s'' out haux
            rw [h2] at hok
            dsimp only at hok
            subst hok
            have hok' : (print_packs_aux pt total fuel (idx + 1) s' ps).2.2 = .ok := by
              rw [haux]
            have hrec := ih (idx + 1) s' rest hok'
            rw [haux] at hrec
            dsimp only at hrec
            have h1 := print_packs_aux_cons_ok pt total fuel idx s t (ps ++ b :: rest) hw
              evs s' il hloop evs2 s'' .panicked hrec
            rw [List.cons_append, h1, h2]

/-- Claim C10: the item parser accepts any i32 value — zero and negative
included — as the count field (no positivity check), and the engine places
no units for a batch whose count is not positive and whose weight does not
exceed `maximum_weight`: it prints nothing for that batch, leaves the state
unchanged, and continues with the next batch. -/
theorem nonpositive_count_accepted_and_skipped :
    (∀ (line p0 p1 p2 p3 : String) (L W : F64) (n : Int),
      splitOnCommas line = [p0, p1, p2, p3] →
      parseF64 p1 = some L → parseF64 p3 = some W → parseI32 p2 = some n →
      ItemTemplate.from_str line = .ok ⟨p0, L, W, n⟩) ∧
    (∀ (pt : PackTemplate) (total fuel idx : Nat) (s : EngineState)
      (b : ItemTemplate) (rest : List ItemTemplate),
      b.count ≤ 0 → F64.gt b.weight pt.maximum_weight = false →
      print_packs_aux pt total fuel idx s (b :: rest) =
        print_packs_aux pt total fuel (idx + 1) s rest) := by
  constructor
  · intro line p0 p1 p2 p3 L W n hsplit hL hW hn
    simp only [ItemTemplate.from_str, hsplit, hL, hW, hn]
  · intro pt total fuel idx s b rest hc hw
    have hloop := pack_batch_loop_nonpos pt b idx total fuel s b.count hc
    rcases haux : print_packs_aux pt total fuel (idx + 1) s rest with ⟨evs2, s'', out⟩
    rw [print_packs_aux_cons_ok pt total fuel idx s b rest hw
      [] s b.count hloop evs2 s'' out haux]
    simp

/-- Claim C2 counterexample: for the engine state with `max_weight = 20` and
no weight used yet, and a batch of weight 0, `max_by_weight` is 2147483647
(the saturating `as i32` cast of `floor(20.0 / 0.0) = inf`), not 0 as the
claim states. -/
theorem max_items_by_weight_zero_weight_cex :
    max_items_by_weight ⟨10, .finite 20, .Natural⟩ (.finite 0)
        ⟨"a", .finite 1, .finite 0, 1⟩ = 2147483647 ∧
    max_items_by_weight ⟨10, .finite 20, .Natural⟩ (.finite 0)
        ⟨"a", .finite 1, .finite 0, 1⟩ ≠ 0 := by
  with_unfolding_all decide

/-- Claim C2 (amended): in the headroom computation with finite maximum
weight `MW` and finite current pack weight `CW`, a batch weight of 0 does
not make `max_by_weight` 0; instead the IEEE division and the saturating
`as i32` cast give `i32::MAX` when the weight headroom is positive (such an
item is bounded only by the piece headroom), `i32::MIN` when the headroom
is negative, and 0 (cast of nan) exactly when the headroom is 0.  For a
positive batch weight whose floored quotient lies in the i32 range,
`max_by_weight` equals the floor of the headroom divided by the weight. -/
theorem max_items_by_weight_spec (pt : PackTemplate) (cw : F64) (t : ItemTemplate)
    (MW CW : ℚ) (hMW : pt.maximum_weight = .finite MW) (hCW : cw = .finite CW) :
    (t.weight = .finite 0 →
      max_items_by_weight pt cw t =
        (if 0 < MW - CW then 2147483647
          else if MW - CW < 0 then -2147483648 else 0)) ∧
    (∀ w : ℚ, 0 < w → t.weight = .finite w →
      -2147483648 ≤ ⌊(MW - CW) / w⌋ → ⌊(MW - CW) / w⌋ ≤ 2147483647 →
      max_items_by_weight pt cw t = ⌊(MW - CW) / w⌋) := by
  constructor
  · intro hw
    simp only [max_items_by_weight, hMW, hCW, hw, F64.sub, F64.div]
    split_ifs with h1 h2 <;> simp_all [F64.floor, F64.toI32]
  · intro w hw0 hww h1 h2
    simp only [max_items_by_weight, hMW, hCW, hww, F64.sub, F64.div]
    rw [if_neg (ne_of_gt hw0)]
    simp only [F64.floor, F64.toI32]
    split_ifs with h3 <;> simp only [Int.floor_intCast, Int.ceil_intCast] <;> omega

/-- Witness for claim C2 at the values of the repository's own test case:
`max_weight = 50`, `current_weight = 30`, item weight 5 gives
`floor(20 / 5) = 4`. -/
theorem max_items_by_weight_spec_witness :
    (0:ℚ) < 5 ∧
    -2147483648 ≤ ⌊((50:ℚ) - 30) / 5⌋ ∧ ⌊((50:ℚ) - 30) / 5⌋ ≤ 2147483647 ∧
    max_items_by_weight ⟨10, .finite 50, .NotSet⟩ (.finite 30)
      ⟨"item1", .finite 10, .finite 5, 1⟩ = ⌊((50:ℚ) - 30) / 5⌋ :=
  ⟨by norm_num, by with_unfolding_all decide, by with_unfolding_all decide,
    (max_items_by_weight_spec ⟨10, .finite 50, .NotSet⟩ (.finite 30)
      ⟨"item1", .finite 10, .finite 5, 1⟩ 50 30 rfl rfl).2 5 (by norm_num) rfl
      (by with_unfolding_all decide) (by with_unfolding_all decide)⟩

/-- Claim C3 counterexample: on the 4-field line `100,1.0,x,y`, whose count
field and weight field are both unparsable, `from_str` returns
`InvalidItemWeight` (about the weight field), not `InvalidItemCount` as the
claim states. -/
theorem item_parse_order_cex :
    ItemTemplate.from_str "100,1.0,x,y" =
      .error (.invalidItemWeight "100,1.0,x,y" "y") ∧
    ItemTemplate.from_str "100,1.0,x,y" ≠
      .error (.invalidItemCount "100,1.0,x,y" "x") := by
  with_unfolding_all decide

/-- Claim C3 (amended): `from_str` returns the first failure in field order
id, length, weight, count: on every 4-field line whose length field parses
and whose weight field does not, the error is `InvalidItemWeight`, whatever
the count field holds. -/
theorem item_parse_weight_before_count (line p0 p1 p2 p3 : String) (L : F64)
    (hsplit : splitOnCommas line = [p0, p1, p2, p3])
    (hL : parseF64 p1 = some L) (hW : parseF64 p3 = none) :
    ItemTemplate.from_str line = .error (.invalidItemWeight line p3) := by
  simp only [ItemTemplate.from_str, hsplit, hL, hW]

/-- Witness for claim C3 on the line `100,1.0,x,y`. -/
theorem item_parse_weight_before_count_witness :
    splitOnCommas "100,1.0,x,y" = ["100", "1.0", "x", "y"] ∧
    parseF64 "1.0" = some (.finite 1) ∧ parseF64 "y" = none ∧
    ItemTemplate.from_str "100,1.0,x,y" =
      .error (.invalidItemWeight "100,1.0,x,y" "y") :=
  ⟨by with_unfolding_all decide, by with_unfolding_all decide,
    by with_unfolding_all decide,
    item_parse_weight_before_count "100,1.0,x,y" "100" "1.0" "x" "y" (.finite 1)
      (by with_unfolding_all decide) (by with_unfolding_all decide)
      (by with_unfolding_all decide)⟩

/-- Claim C4 counterexample: the sort-order parser accepts the sentinel's
own name — parsing `NotSet` succeeds with the sentinel value rather than
failing with `InvalidSortOrder`. -/
theorem sort_order_accepts_sentinel_cex :
    PackSortOrder.from_str "NotSet" = .ok PackSortOrder.NotSet := by
  with_unfolding_all decide

/-- Claim C4 (amended): the derived sort-order parser accepts exactly the
four literals `NATURAL`, `SHORT_TO_LONG`, `LONG_TO_SHORT` and `NotSet`
(case-sensitive, exact equality only); every other token fails with the
variant-not-found error, which `from_line` reports as `InvalidSortOrder`. -/
theorem sort_order_tokens :
    PackSortOrder.from_str "NATURAL" = .ok .Natural ∧
    PackSortOrder.from_str "SHORT_TO_LONG" = .ok .ShortToLong ∧
    PackSortOrder.from_str "LONG_TO_SHORT" = .ok .LongToShort ∧
    PackSortOrder.from_str "NotSet" = .ok .NotSet ∧
    (∀ s : String, s ≠ "NATURAL" → s ≠ "SHORT_TO_LONG" → s ≠ "LONG_TO_SHORT" →
      s ≠ "NotSet" → PackSortOrder.from_str s = .error .variantNotFound) := by
  refine ⟨rfl, rfl, rfl, rfl, ?_⟩
  intro s h1 h2 h3 h4
  simp [PackSortOrder.from_str, h1, h2, h3, h4]

/-- Witness for claim C4 at the token `FOO`. -/
theorem sort_order_tokens_witness :
    ("FOO" ≠ "NATURAL" ∧ "FOO" ≠ "SHORT_TO_LONG" ∧ "FOO" ≠ "LONG_TO_SHORT" ∧
      "FOO" ≠ "NotSet") ∧
    PackSortOrder.from_str "FOO" = .error .variantNotFound :=
  ⟨⟨by decide, by decide, by decide, by decide⟩,
    sort_order_tokens.2.2.2.2 "FOO" (by decide) (by decide) (by decide) (by decide)⟩

/-- Claim C7: parsing each of the three sort-order keywords and then
formatting the parsed value round-trips to the identical keyword. -/
theorem sort_order_round_trip :
    (PackSortOrder.from_str "NATURAL").map PackSortOrder.toStr = .ok "NATURAL" ∧
    (PackSortOrder.from_str "SHORT_TO_LONG").map PackSortOrder.toStr =
      .ok "SHORT_TO_LONG" ∧
    (PackSortOrder.from_str "LONG_TO_SHORT").map PackSortOrder.toStr =
      .ok "LONG_TO_SHORT" :=
  ⟨rfl, rfl, rfl⟩

/-- Claim C8: the well-shaped 4-field item line `1,NaN,1,1.0` is accepted by
the item parser, producing a batch whose length is not a number; applying
the `ShortToLong` or `LongToShort` ordering to a list containing that batch
then panics in the length comparison (`none` models the comparator panic)
instead of returning a structured error. -/
theorem nan_length_parses_and_sort_panics :
    ItemTemplate.from_str "1,NaN,1,1.0" =
      .ok { id := "1", length := .nan, weight := .finite 1, count := 1 } ∧
    applySortOrder .ShortToLong
      [{ id := "1", length := .nan, weight := .finite 1, count := 1 },
        { id := "2", length := .finite 1, weight := .finite 1, count := 1 }] = none ∧
    applySortOrder .LongToShort
      [{ id := "1", length := .nan, weight := .finite 1, count := 1 },
        { id := "2", length := .finite 1, weight := .finite 1, count := 1 }] = none :=
  ⟨by with_unfolding_all decide, by with_unfolding_all decide,
    by with_unfolding_all decide⟩

/-- Case analysis of `from_line`: either the call succeeded, or the record
it returns is the unchanged input record. -/
theorem from_line_cases (self : PackTemplate) (s : String) :
    (PackTemplate.from_line self s).2 = none ∨
    (PackTemplate.from_line self s).1 = self := by
  unfold PackTemplate.from_line
  generalize splitOnCommas s = ps
  rcases ps with _ | ⟨p0, _ | ⟨p1, _ | ⟨p2, _ | ⟨p3, tl⟩⟩⟩⟩
  · simp
  · simp
  · simp
  · rcases h0 : PackSortOrder.from_str p0 with e | o
    · simp [h0]
    · rcases h1 : parseI32 p1 with _ | n
      · simp [h0, h1]
      · rcases h2 : parseF64 p2 with _ | w
        · simp [h0, h1, h2]
        · simp [h0, h1, h2]
  · simp

/-- Claim C9: `from_line` is atomic on error — whenever it reports an error
(wrong field count, bad sort order, bad piece count or bad weight), the
constraint record it operates on is left completely unchanged; the three
fields are assigned only after all three parses have succeeded. -/
theorem from_line_atomic_on_error (self : PackTemplate) (s : String) (e : Error)
    (h : (PackTemplate.from_line self s).2 = some e) :
    (PackTemplate.from_line self s).1 = self := by
  rcases from_line_cases self s with h0 | h0
  · rw [h] at h0
    cases h0
  · exact h0

/-- Witness for claim C9 on the 1-field line `XYZ`. -/
theorem from_line_atomic_on_error_witness :
    (PackTemplate.from_line ⟨7, .finite 3, .Natural⟩ "XYZ").2 =
      some (.invalidNumberOfPropertiesForPacks "XYZ" 1) ∧
    (PackTemplate.from_line ⟨7, .finite 3, .Natural⟩ "XYZ").1 =
      ⟨7, .finite 3, .Natural⟩ :=
  ⟨by with_unfolding_all decide,
    from_line_atomic_on_error ⟨7, .finite 3, .Natural⟩ "XYZ"
      (.invalidNumberOfPropertiesForPacks "XYZ" 1) (by with_unfolding_all decide)⟩

/-- Witness for claim C5: after the batch `A` completes normally, the heavy
batch `B` (weight 99 against `max_weight` 10) aborts the run. -/
theorem heavy_batch_aborts_witness :
    F64.gt (ItemTemplate.mk "B" (.finite 2) (.finite 99) 5).weight
      (PackTemplate.mk 2 (.finite 10) .Natural).maximum_weight = true ∧
    (print_packs_aux ⟨2, .finite 10, .Natural⟩ 2 100 0
      (initial_engine_state ⟨2, .finite 10, .Natural⟩)
      [⟨"A", .finite 1, .finite 1, 1⟩]).2.2 = .ok ∧
    print_packs_aux ⟨2, .finite 10, .Natural⟩ 2 100 0
      (initial_engine_state ⟨2, .finite 10, .Natural⟩)
      ([⟨"A", .finite 1, .finite 1, 1⟩] ++ ⟨"B", .finite 2, .finite 99, 5⟩ :: []) =
      ((print_packs_aux ⟨2, .finite 10, .Natural⟩ 2 100 0
          (initial_engine_state ⟨2, .finite 10, .Natural⟩)
          [⟨"A", .finite 1, .finite 1, 1⟩]).1,
        (print_packs_aux ⟨2, .finite 10, .Natural⟩ 2 100 0
          (initial_engine_state ⟨2, .finite 10, .Natural⟩)
          [⟨"A", .finite 1, .finite 1, 1⟩]).2.1, .panicked) :=
  ⟨by with_unfolding_all decide, by with_unfolding_all decide,
    heavy_batch_aborts ⟨2, .finite 10, .Natural⟩ 2 100
      ⟨"B", .finite 2, .finite 99, 5⟩ (by with_unfolding_all decide)
      [⟨"A", .finite 1, .finite 1, 1⟩] 0
      (initial_engine_state ⟨2, .finite 10, .Natural⟩) []
      (by with_unfolding_all decide)⟩

/-- Witness for claim C10: the line `7,2.0,-3,1.5` parses with the negative
count -3, and the engine skips a count-0 batch without output or state
change. -/
theorem nonpositive_count_accepted_and_skipped_witness :
    (splitOnCommas "7,2.0,-3,1.5" = ["7", "2.0", "-3", "1.5"] ∧
      parseF64 "2.0" = some (.finite 2) ∧ parseF64 "1.5" = some (.finite (3/2)) ∧
      parseI32 "-3" = some (-3) ∧
      ItemTemplate.from_str "7,2.0,-3,1.5" =
        .ok ⟨"7", .finite 2, .finite (3/2), -3⟩) ∧
    ((ItemTemplate.mk "A" (.finite 1) (.finite 1) 0).count ≤ 0 ∧
      F64.gt (ItemTemplate.mk "A" (.finite 1) (.finite 1) 0).weight
        (PackTemplate.mk 2 (.finite 10) .Natural).maximum_weight = false ∧
      print_packs_aux ⟨2, .finite 10, .Natural⟩ 2 5 0
        (initial_engine_state ⟨2, .finite 10, .Natural⟩)
        (⟨"A", .finite 1, .finite 1, 0⟩ :: [⟨"B", .finite 2, .finite 1, 1⟩]) =
      print_packs_aux ⟨2, .finite 10, .Natural⟩ 2 5 1
        (initial_engine_state ⟨2, .finite 10, .Natural⟩)
        [⟨"B", .finite 2, .finite 1, 1⟩]) :=
  ⟨⟨by with_unfolding_all decide, by with_unfolding_all decide,
      by with_unfolding_all decide, by with_unfolding_all decide,
      nonpositive_count_accepted_and_skipped.1 "7,2.0,-3,1.5" "7" "2.0" "-3" "1.5"
        (.finite 2) (.finite (3/2)) (-3) (by with_unfolding_all decide)
        (by with_unfolding_all decide) (by with_unfolding_all decide)
        (by with_unfolding_all decide)⟩,
    ⟨by decide, by with_unfolding_all decide,
      nonpositive_count_accepted_and_skipped.2 ⟨2, .finite 10, .Natural⟩ 2 5 0
        (initial_engine_state ⟨2, .finite 10, .Natural⟩)
        ⟨"A", .finite 1, .finite 1, 0⟩ [⟨"B", .finite 2, .finite 1, 1⟩]
        (by decide) (by with_unfolding_all decide)⟩⟩
